import Mathlib

/-!
Verification of the esphome-fastcon controller (`fastcon_controller.cpp`,
base and optimized variants) against its natural-language specification.

Bytes are modelled as `Nat` with explicit `% 256` wherever the C++ code
performs a narrowing store into a `uint8_t`; fallible radio calls are
modelled by boolean oracle inputs; the cooperative `loop()` is a step
function from controller state and the current `millis()` value to a new
state plus a list of observable events (radio calls and log messages).
The final RF-framing step `prepare_payload` (from `protocol.h`) is an
external collaborator per the spec and is not modelled: `generate_command`
here yields the encrypted mesh body handed to that step.
-/

namespace Fastcon

/-- `checksum = checksum + body[i]` accumulated in a `uint8_t`. -/
def checksum8 (l : List Nat) : Nat :=
  l.foldl (fun c b => (c + b) % 256) 0

/-- The XOR pass of `generate_command`: body indices `0..3` are XORed with
`encrypt_key[i & 3]`, indices `4+i` with `mesh_key[i & 3]`.  Applying it a
second time is the decryption step described by the spec. -/
def xor_with_keys (ek mk : List Nat) : Nat → List Nat → List Nat
  | _, [] => []
  | i, b :: bs =>
    (if i < 4 then ek.getD (i % 4) 0 ^^^ b else mk.getD ((i - 4) % 4) 0 ^^^ b)
      :: xor_with_keys ek mk (i + 1) bs

/-- The post-increment update of the `static uint8_t sequence` counter in
`FastconController::generate_command`: `sequence++; if (sequence >= 255) sequence = 1;`. -/
def seq_step (s : Nat) : Nat :=
  let s' := (s + 1) % 256
  if s' ≥ 255 then 1 else s'

/-- Counter value observed by the k-th call to `generate_command` (the static
starts at 0). -/
def seq_stream : Nat → Nat
  | 0 => 0
  | k + 1 => seq_step (seq_stream k)

/-- Pre-encryption body of `FastconController::generate_command`:
header byte 0 packs the light-id high nibble, command type and forward flag;
byte 1 is the sequence counter; byte 2 is `mesh_key_[3]`; byte 3 the
checksum over all other bytes. -/
def command_body (n light_id : Nat) (data : List Nat) (forward : Bool)
    (mesh_key : List Nat) (seq : Nat) : List Nat :=
  let i2 := (light_id / 256) % 256
  let b0 := (i2 &&& 0b1111) ||| ((n &&& 0b111) <<< 4) ||| (if forward then 0x80 else 0)
  let b1 := seq % 256
  let b2 := mesh_key.getD 3 0
  let checksum := checksum8 ([b0, b1, b2] ++ data)
  [b0, b1, b2, checksum] ++ data

/-- `FastconController::generate_command`, minus the external
`prepare_payload` RF framing: returns the encrypted mesh body and the new
value of the static sequence counter. -/
def generate_command (n light_id : Nat) (data : List Nat) (forward : Bool)
    (mesh_key encrypt_key : List Nat) (seq : Nat) : List Nat × Nat :=
  (xor_with_keys encrypt_key mesh_key 0 (command_body n light_id data forward mesh_key seq),
   seq_step seq)

/-- `FastconController::single_control`: builds the 12-byte inner payload
(`result_data`) and feeds it to `generate_command` with command type 5.
Callers supply at most 10 bytes of light data (`get_light_data` yields ≤ 6). -/
def single_control (light_id : Nat) (light_data : List Nat)
    (mesh_key encrypt_key : List Nat) (seq : Nat) : List Nat × Nat :=
  let r0 := (2 ||| ((0xfffffff &&& (light_data.length + 1)) <<< 4)) % 256
  let r1 := light_id % 256
  let result_data := [r0, r1] ++ (light_data ++ List.replicate 12 0).take 10
  generate_command 5 light_id result_data true mesh_key encrypt_key seq

/-- A `FastconController::Command` queue entry. -/
structure Command where
  data : List Nat
  timestamp : Nat
  retries : Nat
deriving DecidableEq, Repr

/-- `FastconController::queueCommand`: drops the new command (with a warning)
when the queue already holds `max_queue_size` entries; otherwise pushes it at
the back.  Returns the new queue and whether the full-queue warning fired. -/
def queueCommand (queue : List Command) (max_queue_size : Nat)
    (data : List Nat) (now : Nat) : List Command × Bool :=
  if queue.length ≥ max_queue_size then (queue, true)
  else (queue ++ [⟨data, now, 0⟩], false)

/-- `FastconController::AdvertiseState`. -/
inductive AdvertiseState | IDLE | ADVERTISING | GAP
deriving DecidableEq, Repr

/-- `FastconController::PairingPhase` (optimized variant). -/
inductive PairingPhase | DISCOVERY | PAIRING
deriving DecidableEq, Repr

/-- Observable effects of one `loop()` tick: radio calls and warnings. -/
inductive Event where
  | logWarnConfig
  | logWarnStart
  | stopAdvertising
  | stopScanning
  | startScanning (interval : Nat)
  | configAdv (bytes : List Nat)
  | startAdv
deriving DecidableEq, Repr

/-- State of a `FastconController` (optimized variant), including the two
function-local `static uint8_t` counters of the advertisement builders and
the member `sequence_counter_`. -/
structure Controller where
  queue : List Command
  max_queue_size : Nat
  adv_state : AdvertiseState
  state_start_time : Nat
  mesh_key : List Nat
  adv_duration : Nat
  adv_gap : Nat
  pairing_mode : Bool
  pairing_start_time : Nat
  pairing_phase : PairingPhase
  pairing_phase_start : Nat
  pairing_light_id : Nat
  pairing_base_light_id : Nat
  sequence_counter : Nat
  pairing_counter : Nat
  disc_counter : Nat
deriving DecidableEq, Repr

/-- `FastconController::build_discovery_advertisement` (command byte 0x4e):
returns the advertisement bytes and the new value of the local static
`counter`. -/
def build_discovery_advertisement (counter : Nat) : List Nat × Nat :=
  ([0x66, 0x55, 0x44, 0x33, 0x22, 0x11,
    0x02, 0x01, 0x1a,
    0x13, 0xff, 0xf0, 0xff,
    0x4e,
    (0x6c + counter % 4) % 256, (0x5a + counter % 8) % 256, counter % 8,
    0x34, 0x8e, 0x89, 0xb5,
    0xe2, 0x38, 0xa1, 0xa8, 0x5e, 0x36, 0x7b, 0xc4,
    0xe9, 0x97, 0x4d],
   (counter + 1) % 256)

/-- `FastconController::calculate_pairing_crc`: placeholder checksum over the
bytes after the manufacturer header. -/
def calculate_pairing_crc (data : List Nat) : Nat :=
  ((data.drop 13).sum * 0x1234) &&& 0xFFFFFF

/-- `FastconController::build_pairing_advertisement` (command byte 0x6e):
returns the advertisement bytes and the new value of the local static
`pairing_counter`.  Bytes 15–16 hold the light id (low byte, high byte);
bytes 23–24 are ASCII "99"; bytes 25–28 are the four `mesh_key_` bytes
pushed as-is; bytes 29–31 are the placeholder CRC. -/
def build_pairing_advertisement (mesh_key : List Nat) (light_id counter : Nat) :
    List Nat × Nat :=
  let head : List Nat :=
    [0x66, 0x55, 0x44, 0x33, 0x22, 0x11,
     0x02, 0x01, 0x1a,
     0x13, 0xff, 0xf0, 0xff,
     0x6e,
     counter % 256,
     light_id &&& 0xFF, (light_id >>> 8) &&& 0xFF,
     0x44, 0x10, 0x33, 0x32,
     0x34, 0x0a,
     0x39, 0x39,
     mesh_key.getD 0 0, mesh_key.getD 1 0, mesh_key.getD 2 0, mesh_key.getD 3 0]
  let crc := calculate_pairing_crc head
  (head ++ [(crc >>> 16) &&& 0xFF, (crc >>> 8) &&& 0xFF, crc &&& 0xFF],
   (counter + 1) % 256)

/-- The pairing branch of `FastconController::loop` (optimized variant),
entered while `pairing_mode_` is set.  `cfg_ok`/`start_ok` are the results of
`esp_ble_gap_config_adv_data_raw` / `esp_ble_gap_start_advertising`. -/
def pairing_loop (c0 : Controller) (now : Nat) (cfg_ok start_ok : Bool) :
    Controller × List Event :=
  let elapsed := now - c0.pairing_start_time
  -- Discovery (4 s) -> Pairing phase transition
  let step1 : Controller × List Event :=
    if c0.pairing_phase = PairingPhase.DISCOVERY ∧ 4000 ≤ elapsed then
      ({ c0 with pairing_phase := PairingPhase.PAIRING, pairing_phase_start := now,
                 adv_state := AdvertiseState.IDLE }, [Event.stopAdvertising])
    else (c0, [])
  let c1 := step1.1
  -- Auto-increment light id every 5 s during the pairing phase
  let step2 : Controller × List Event :=
    if c1.pairing_phase = PairingPhase.PAIRING then
      let phase_elapsed := now - c1.pairing_phase_start
      let new_light_id := c1.pairing_base_light_id + phase_elapsed / 5000
      if new_light_id ≠ c1.pairing_light_id then
        ({ c1 with pairing_light_id := new_light_id, sequence_counter := 0x50,
                   adv_state := AdvertiseState.IDLE }, [Event.stopAdvertising])
      else (c1, [])
    else (c1, [])
  let c2 := step2.1
  -- Exit pairing mode after 60 seconds total
  if 60000 ≤ elapsed then
    ({ c2 with pairing_mode := false, adv_state := AdvertiseState.IDLE },
     step1.2 ++ step2.2 ++ [Event.stopAdvertising, Event.startScanning 300])
  else
    -- Continuously advertise during pairing mode (re-issue every 100 ms)
    let step3 : Controller × List Event :=
      if c2.adv_state = AdvertiseState.IDLE ∨
         (c2.adv_state = AdvertiseState.ADVERTISING ∧ 100 ≤ now - c2.state_start_time) then
        let stopEv : List Event :=
          if c2.adv_state = AdvertiseState.ADVERTISING then [Event.stopAdvertising] else []
        let built : List Nat × Controller :=
          if c2.pairing_phase = PairingPhase.DISCOVERY then
            let b := build_discovery_advertisement c2.disc_counter
            (b.1, { c2 with disc_counter := b.2 })
          else
            let b := build_pairing_advertisement c2.mesh_key c2.pairing_light_id c2.pairing_counter
            (b.1, { c2 with pairing_counter := b.2 })
        let raw := (built.1.drop 6).take 25   -- skip 6-byte MAC, limit to 25
        if ¬cfg_ok then
          (built.2, stopEv ++ [Event.configAdv raw, Event.logWarnConfig])
        else if ¬start_ok then
          (built.2, stopEv ++ [Event.configAdv raw, Event.startAdv, Event.logWarnStart])
        else
          ({ built.2 with adv_state := AdvertiseState.ADVERTISING, state_start_time := now },
           stopEv ++ [Event.configAdv raw, Event.startAdv])
      else (c2, [])
    (step3.1, step1.2 ++ step2.2 ++ step3.2)

/-- The normal advertisement state machine of `FastconController::loop`
(`IDLE → ADVERTISING → GAP → IDLE`).  In `IDLE` the head command is popped
before the radio is configured; on a radio error the function returns with
the state unchanged (still `IDLE`) and the popped command discarded. -/
def normal_loop (c : Controller) (now : Nat) (cfg_ok start_ok : Bool) :
    Controller × List Event :=
  match c.adv_state with
  | AdvertiseState.IDLE =>
    match c.queue with
    | [] => (c, [])
    | cmd :: rest =>
      let c' := { c with queue := rest }
      let raw := [2, 0x01, 0x06,
                  (cmd.data.length + 2) % 256, 0xff, 0xf0, 0xff] ++ cmd.data
      if ¬cfg_ok then (c', [Event.configAdv raw, Event.logWarnConfig])
      else if ¬start_ok then
        (c', [Event.configAdv raw, Event.startAdv, Event.logWarnStart])
      else
        ({ c' with adv_state := AdvertiseState.ADVERTISING, state_start_time := now },
         [Event.configAdv raw, Event.startAdv])
  | AdvertiseState.ADVERTISING =>
    if c.adv_duration ≤ now - c.state_start_time then
      ({ c with adv_state := AdvertiseState.GAP, state_start_time := now },
       [Event.stopAdvertising])
    else (c, [])
  | AdvertiseState.GAP =>
    if c.adv_gap ≤ now - c.state_start_time then
      ({ c with adv_state := AdvertiseState.IDLE }, [])
    else (c, [])

/-- `FastconController::loop` (optimized variant): pairing mode takes
priority over the normal advertisement state machine. -/
def loop (c : Controller) (now : Nat) (cfg_ok start_ok : Bool) :
    Controller × List Event :=
  if c.pairing_mode then pairing_loop c now cfg_ok start_ok
  else normal_loop c now cfg_ok start_ok

/-- `FastconController::pair_device` (optimized variant): stops scanning and
advertising, and arms the pairing session in the discovery phase. -/
def pair_device (c : Controller) (new_light_id : Nat) (now : Nat) :
    Controller × List Event :=
  ({ c with pairing_mode := true, pairing_start_time := now,
            pairing_light_id := new_light_id, pairing_base_light_id := new_light_id,
            pairing_phase := PairingPhase.DISCOVERY, adv_state := AdvertiseState.IDLE },
   [Event.stopScanning, Event.stopAdvertising])

/-! ### Light-state encoder (`FastconController::get_light_data`) -/

/-- `esphome::light::ColorCapability` bit values. -/
def ColorCapability.WHITE : Nat := 0x04

def ColorCapability.COLOR_TEMPERATURE : Nat := 0x08

def ColorCapability.COLD_WARM_WHITE : Nat := 0x10

def ColorCapability.RGB : Nat := 0x20

/-- Snapshot of `state->current_values`: channel values are normalized
rationals (the C++ floats, modelled exactly on the in-contract domain). -/
structure LightValues where
  is_on : Bool
  color_mode : Nat
  brightness : ℚ
  red : ℚ
  green : ℚ
  blue : ℚ
  warm_white : ℚ
  cold_white : ℚ
  color_temperature : ℚ
deriving DecidableEq

/-- `static_cast<uint8_t>` of a non-negative float value: truncation toward
zero, i.e. the floor, stored into a byte. -/
def u8 (q : ℚ) : Nat := (⌊q⌋).toNat % 256

/-- `FastconController::get_light_data`.  Off yields the single byte `0x00`;
a color mode containing WHITE short-circuits to the single truncated
brightness byte (without the `0x80` on-bit); otherwise the 6-byte vector is
filled from the RGB / cold-warm-white / color-temperature capabilities. -/
def get_light_data (v : LightValues) : List Nat :=
  if v.is_on = false then [0x00]
  else
    let brightness : ℚ := min (v.brightness * 127) 127
    if v.color_mode &&& ColorCapability.WHITE ≠ 0 then
      [u8 brightness]
    else
      let b0 := (0x80 + u8 brightness) % 256
      let rgb : Nat × Nat × Nat :=
        if v.color_mode &&& ColorCapability.RGB ≠ 0 then
          (u8 (v.blue * 255), u8 (v.red * 255), u8 (v.green * 255))
        else (0, 0, 0)
      let cw : Nat × Nat :=
        if v.color_mode &&& ColorCapability.COLD_WARM_WHITE ≠ 0 then
          (u8 (v.warm_white * 255), u8 (v.cold_white * 255))
        else (0, 0)
      let cw' : Nat × Nat :=
        if v.color_mode &&& ColorCapability.COLOR_TEMPERATURE ≠ 0 then
          if v.color_temperature < 153 then (0xff, 0x00)
          else if 500 < v.color_temperature then (0x00, 0xff)
          else (u8 ((500 - v.color_temperature) * 255 / (500 - 153)),
                u8 ((v.color_temperature - 153) * 255 / (500 - 153)))
        else cw
      [b0, rgb.1, rgb.2.1, rgb.2.2, cw'.1, cw'.2]

/-! ### Debounce / dedup layer (`fastcon_light.cpp`) -/

/-- Modelled from the spec: `fastcon_light.cpp` / `fastcon_light.h` are not
among the sources; the per-light debounce record and its `loop()` are
reconstructed from the code snippets in `OPTIMIZATION.md` and spec §4.6. -/
structure LightDebounce where
  last_sent_data : List Nat
  pending_data : List Nat
  last_state_change : Nat
  last_command_sent : Nat
  has_pending_command : Bool
deriving DecidableEq, Repr

def DEBOUNCE_MS : Nat := 100

def MIN_INTERVAL_MS : Nat := 300

/-- Modelled from the spec: `fastcon_light.cpp write_state()` — stash the
encoded command as pending instead of sending immediately. -/
def light_write_state (s : LightDebounce) (adv_data : List Nat) (now : Nat) :
    LightDebounce :=
  { s with pending_data := adv_data, last_state_change := now,
           has_pending_command := true }

/-- Modelled from the spec: `fastcon_light.cpp loop()` — debounce window,
minimum-interval window, duplicate suppression, then enqueue.  Returns the
new record and the frame handed to `queueCommand`, if any. -/
def light_loop (s : LightDebounce) (now : Nat) :
    LightDebounce × Option (List Nat) :=
  if s.has_pending_command = false then (s, none)
  else if now - s.last_state_change < DEBOUNCE_MS then (s, none)
  else if now - s.last_command_sent < MIN_INTERVAL_MS then (s, none)
  else if s.pending_data = s.last_sent_data then
    ({ s with has_pending_command := false }, none)
  else
    ({ s with last_sent_data := s.pending_data, last_command_sent := now,
              has_pending_command := false }, some s.pending_data)

/-- Number of frames enqueued by one `light_loop` result. -/
def emitCount : Option (List Nat) → Nat
  | none => 0
  | some _ => 1

/-- Run `light_loop` over a list of tick times, counting enqueued frames. -/
def run_ticks (s : LightDebounce) : List Nat → LightDebounce × Nat
  | [] => (s, 0)
  | t :: ts =>
    let r := light_loop s t
    let rest := run_ticks r.1 ts
    (rest.1, emitCount r.2 + rest.2)

/-- Sum of all bytes of a frame except the byte at index 3 (the checksum
slot), as described by the spec's checksum property. -/
def sum_except3 (l : List Nat) : Nat := (l.take 3).sum + (l.drop 4).sum

/-- ASCII character of a single hex digit. -/
def spec_ascii_hex_digit (n : Nat) : Nat :=
  if n < 10 then 0x30 + n else 0x61 + (n - 10)

/-- The ASCII-hex form of a byte string, as the spec's words describe the
key hand-off payload: each byte becomes two ASCII hex characters. -/
def spec_ascii_hex (key : List Nat) : List Nat :=
  key.foldr (fun b acc =>
    spec_ascii_hex_digit (b / 16) :: spec_ascii_hex_digit (b % 16) :: acc) []

/-! ### Concrete fixtures for witnesses and counterexamples -/

def dummyCmd : Command := ⟨[0], 0, 0⟩

/-- The mesh key from the repository's own example configuration
(`mesh_key: "30323336"`). -/
def testKey : List Nat := [0x30, 0x32, 0x33, 0x36]

/-- A mesh key whose bytes are not ASCII hex characters. -/
def oddKey : List Nat := [1, 2, 3, 4]

/-- A controller with default configuration, idle and not pairing. -/
def baseCtrl : Controller :=
  { queue := [], max_queue_size := 100, adv_state := AdvertiseState.IDLE,
    state_start_time := 0, mesh_key := testKey, adv_duration := 50, adv_gap := 10,
    pairing_mode := false, pairing_start_time := 0,
    pairing_phase := PairingPhase.DISCOVERY, pairing_phase_start := 0,
    pairing_light_id := 0, pairing_base_light_id := 0,
    sequence_counter := 0, pairing_counter := 0x50, disc_counter := 0 }

/-- Idle controller with one queued frame `[42]`. -/
def cIdle : Controller := { baseCtrl with queue := [⟨[42], 0, 0⟩] }

/-- Controller in the pairing phase (base id 1) whose advertisement counter
has advanced to 0x57. -/
def cPairBug : Controller :=
  { baseCtrl with pairing_mode := true, pairing_phase := PairingPhase.PAIRING,
                  pairing_light_id := 1, pairing_base_light_id := 1,
                  pairing_counter := 0x57 }

/-- Controller in the pairing phase (base id 1) with the default counter. -/
def cPairSteady : Controller :=
  { baseCtrl with pairing_mode := true, pairing_phase := PairingPhase.PAIRING,
                  pairing_light_id := 1, pairing_base_light_id := 1 }

/-- A debounce record whose pending bytes equal the last-transmitted bytes. -/
def dbDup : LightDebounce := ⟨[1], [1], 0, 0, true⟩

/-! ### Helper lemmas -/

theorem checksum8_foldl (a : Nat) (l : List Nat) (ha : a < 256) :
    l.foldl (fun c b => (c + b) % 256) a = (a + l.sum) % 256 := by
  induction l generalizing a with
  | nil => simp [Nat.mod_eq_of_lt ha]
  | cons b bs ih =>
    have h : (a + b) % 256 < 256 := Nat.mod_lt _ (by omega)
    simp only [List.foldl_cons, List.sum_cons, ih _ h]
    omega

theorem checksum8_eq_sum_mod (l : List Nat) : checksum8 l = l.sum % 256 := by
  simpa using checksum8_foldl 0 l (by omega)

theorem xor_with_keys_involutive (ek mk : List Nat) (i : Nat) (l : List Nat) :
    xor_with_keys ek mk i (xor_with_keys ek mk i l) = l := by
  induction l generalizing i with
  | nil => rfl
  | cons b bs ih =>
    by_cases h : i < 4 <;>
      simp [xor_with_keys, h, ih, Nat.xor_cancel_left]

theorem seq_stream_formula (k : Nat) :
    seq_stream k = if k = 0 then 0 else (k - 1) % 254 + 1 := by
  induction k with
  | zero => rfl
  | succ n ih =>
    rw [if_neg (Nat.succ_ne_zero n)]
    rcases Nat.eq_zero_or_pos n with h | h
    · subst h; simp [seq_stream, seq_step]
    · rw [if_neg (by omega)] at ih
      simp only [seq_stream, seq_step, ih]
      split_ifs with h1 <;> omega

theorem seq_stream_lt (k : Nat) : seq_stream k < 255 := by
  rw [seq_stream_formula]; split_ifs <;> omega

theorem land_fifteen (x : Nat) : x &&& 15 = x % 16 := by
  simpa using Nat.and_pow_two_sub_one_eq_mod x 4

theorem land_255 (x : Nat) : x &&& 255 = x % 256 := by
  simpa using Nat.and_pow_two_sub_one_eq_mod x 8

/-- A debounce record whose pending bytes equal its last-transmitted bytes
never emits and keeps both unchanged over any tick sequence. -/
theorem run_ticks_dup (s : LightDebounce) (ts : List Nat)
    (h : s.pending_data = s.last_sent_data) :
    (run_ticks s ts).2 = 0 ∧
    (run_ticks s ts).1.pending_data = s.pending_data ∧
    (run_ticks s ts).1.last_sent_data = s.last_sent_data := by
  induction ts generalizing s with
  | nil => exact ⟨rfl, rfl, rfl⟩
  | cons t ts ih =>
    simp only [run_ticks, light_loop]
    split_ifs with h1 h2 h3
    · simpa [emitCount] using ih s h
    · simpa [emitCount] using ih s h
    · simpa [emitCount] using ih s h
    · have := ih { s with has_pending_command := false } (by simpa using h)
      simpa [emitCount] using this

/-- Over any tick sequence a debounce record emits at most one frame; if it
emits one the last-transmitted bytes become the pending bytes, and if it
emits none they are unchanged.  The pending bytes are never changed by
ticks. -/
theorem run_ticks_bound (s : LightDebounce) (ts : List Nat) :
    (run_ticks s ts).2 ≤ 1 ∧
    (run_ticks s ts).1.pending_data = s.pending_data ∧
    ((run_ticks s ts).2 = 1 → (run_ticks s ts).1.last_sent_data = s.pending_data) ∧
    ((run_ticks s ts).2 = 0 → (run_ticks s ts).1.last_sent_data = s.last_sent_data) := by
  induction ts generalizing s with
  | nil =>
    refine ⟨by simp [run_ticks], rfl, ?_, fun _ => rfl⟩
    intro h
    simp [run_ticks] at h
  | cons t ts ih =>
    simp only [run_ticks, light_loop]
    split_ifs with h1 h2 h3 h4
    · simpa [emitCount] using ih s
    · simpa [emitCount] using ih s
    · simpa [emitCount] using ih s
    · have := ih { s with has_pending_command := false }
      simpa [emitCount] using this
    · have hd := run_ticks_dup
        { s with last_sent_data := s.pending_data, last_command_sent := t,
                 has_pending_command := false } ts (by simp)
      rcases hd with ⟨hc, hp, hl⟩
      simp only [emitCount, hc]
      exact ⟨by omega, by simpa using hp, fun _ => by simpa using hl,
        fun hzero => absurd hzero (by omega)⟩

/-! ### Claim theorems -/

/-- C2: across successive calls to `generate_command` starting from the
initial counter 0, the sequence byte (decrypted header byte 1) of the k-th
frame follows `0, 1, …, 254, 1, 2, …, 254, 1, …`: it post-increments per
frame, wraps to 1, never revisits 0 after the first frame, and 255 is never
emitted. -/
theorem generate_command_seq_byte_pattern (k n lid : Nat) (data mk ek : List Nat)
    (fwd : Bool) :
    ek.getD 1 0 ^^^ (generate_command n lid data fwd mk ek (seq_stream k)).1.getD 1 0
      = seq_stream k
    ∧ (generate_command n lid data fwd mk ek (seq_stream k)).2 = seq_stream (k + 1)
    ∧ seq_stream k = (if k = 0 then 0 else (k - 1) % 254 + 1)
    ∧ seq_stream k ≠ 255
    ∧ (k ≠ 0 → seq_stream k ≠ 0) := by
  have hlt : seq_stream k < 255 := seq_stream_lt k
  refine ⟨?_, rfl, seq_stream_formula k, by omega, ?_⟩
  · simp only [generate_command, command_body, List.cons_append, List.nil_append,
      xor_with_keys]
    simp [List.getD, Nat.xor_cancel_left, Nat.mod_eq_of_lt (by omega : seq_stream k < 256)]
  · intro hk
    rw [seq_stream_formula]
    split_ifs <;> omega

/-- C2 witness: concrete instance at k = 3. -/
theorem generate_command_seq_byte_pattern_witness :
    (3 : Nat) ≠ 0 ∧ seq_stream 3 ≠ 0 :=
  ⟨by decide, (generate_command_seq_byte_pattern 3 5 0 [] testKey testKey true).2.2.2.2
      (by decide)⟩

/-- C3: for every frame produced by `generate_command`, XOR-decrypting the
header with the fixed constant and the payload with the mesh key (index mod
4), then summing all decrypted bytes except index 3 modulo 256, reproduces
decrypted byte 3 exactly. -/
theorem generate_command_checksum_property (n lid : Nat) (data mk ek : List Nat)
    (fwd : Bool) (s : Nat) :
    sum_except3 (xor_with_keys ek mk 0 (generate_command n lid data fwd mk ek s).1) % 256
      = (xor_with_keys ek mk 0 (generate_command n lid data fwd mk ek s).1).getD 3 0 := by
  have hdec : xor_with_keys ek mk 0 (generate_command n lid data fwd mk ek s).1
      = command_body n lid data fwd mk s :=
    xor_with_keys_involutive ek mk 0 (command_body n lid data fwd mk s)
  rw [hdec]
  simp only [command_body, sum_except3, List.cons_append, List.nil_append]
  simp [List.getD, checksum8_eq_sum_mod]
  omega

/-- C10: the encoded control frame depends on the light id only through its
low 12 bits: ids congruent modulo 4096 yield byte-identical
`single_control` output given the same light data, sequence counter and
keys. -/
theorem single_control_depends_on_low12 (a b : Nat) (light_data mk ek : List Nat)
    (s : Nat) (h : a % 4096 = b % 4096) :
    single_control a light_data mk ek s = single_control b light_data mk ek s := by
  have h256 : a % 256 = b % 256 := by omega
  have hnib : (a / 256) % 256 &&& 15 = (b / 256) % 256 &&& 15 := by
    rw [land_fifteen, land_fifteen]; omega
  simp only [single_control, generate_command, command_body, h256, hnib]

/-- C10 witness: light ids 5 and 4101 = 5 + 4096 produce identical frames. -/
theorem single_control_depends_on_low12_witness :
    single_control 5 [1, 2] testKey testKey 0 = single_control 4101 [1, 2] testKey testKey 0 :=
  single_control_depends_on_low12 5 4101 [1, 2] testKey testKey 0 (by decide)

/-- C4: when the queue is at capacity, `queueCommand` drops the new command
with a warning and leaves the queue unchanged; starting at or below the
configured maximum, the queue size never exceeds it. -/
theorem queueCommand_full_drops (q : List Command) (m : Nat) (d : List Nat) (now : Nat) :
    (m ≤ q.length → queueCommand q m d now = (q, true)) ∧
    (q.length ≤ m → (queueCommand q m d now).1.length ≤ m) := by
  constructor
  · intro h
    simp [queueCommand, h]
  · intro h
    by_cases hf : m ≤ q.length
    · simp [queueCommand, hf]
      omega
    · simp [queueCommand, hf]
      omega

/-- C4 witness: a queue at the default capacity 100 drops the new command. -/
theorem queueCommand_full_drops_witness :
    queueCommand (List.replicate 100 dummyCmd) 100 [1] 5
        = (List.replicate 100 dummyCmd, true) ∧
    (queueCommand (List.replicate 100 dummyCmd) 100 [1] 5).1.length ≤ 100 :=
  ⟨(queueCommand_full_drops (List.replicate 100 dummyCmd) 100 [1] 5).1 (by simp),
   (queueCommand_full_drops (List.replicate 100 dummyCmd) 100 [1] 5).2 (by simp)⟩

/-- C8 counterexample: for a light that is on in a white color mode with
brightness 1, `get_light_data` returns the single byte 127 — the truncated
brightness without the `0x80` on-bit — whereas the claim's formula
`0x80 | floor(brightness*127)` gives 255. -/
theorem get_light_data_white_onbit_counterexample :
    get_light_data ⟨true, 7, 1, 0, 0, 0, 0, 0, 0⟩ = [127] ∧
    (0x80 : Nat) ||| 127 = 255 ∧ ([127] : List Nat) ≠ [255] := by
  refine ⟨?_, by decide, by decide⟩
  simp [get_light_data, u8, ColorCapability.WHITE]

/-- C8 (amended): for every light state that is on and whose color mode
includes white, `get_light_data` short-circuits to exactly one byte — the
truncated clamped brightness `floor(min(brightness*127, 127))` — with no
color bytes and without the `0x80` on-bit (the byte is always < 128). -/
theorem get_light_data_white_single_byte (v : LightValues)
    (hon : v.is_on = true)
    (hw : v.color_mode &&& ColorCapability.WHITE ≠ 0) :
    get_light_data v = [u8 (min (v.brightness * 127) 127)] ∧
    u8 (min (v.brightness * 127) 127) < 128 := by
  constructor
  · simp [get_light_data, hon, hw]
  · have h1 : ⌊min (v.brightness * 127) 127⌋ ≤ 127 := by
      calc ⌊min (v.brightness * 127) 127⌋ ≤ ⌊(127 : ℚ)⌋ :=
            Int.floor_le_floor (min_le_right _ _)
        _ = 127 := by norm_num
    simp only [u8]
    omega

/-- C8 witness: the amended statement at a concrete white-mode state. -/
theorem get_light_data_white_single_byte_witness :
    get_light_data ⟨true, 7, 1, 0, 0, 0, 0, 0, 0⟩
        = [u8 (min ((1 : ℚ) * 127) 127)] ∧
    u8 (min ((1 : ℚ) * 127) 127) < 128 :=
  get_light_data_white_single_byte ⟨true, 7, 1, 0, 0, 0, 0, 0, 0⟩ rfl (by decide)

/-- C1 counterexample: with a single queued frame `[42]` and a failing
configure call, the tick removes the frame from the queue while staying in
Idle, and the next (successful) tick transmits nothing — the failed frame
is silently lost rather than retried. -/
theorem radio_fail_frame_lost :
    (loop cIdle 0 false true).1.queue = [] ∧
    (loop cIdle 0 false true).1.adv_state = AdvertiseState.IDLE ∧
    loop (loop cIdle 0 false true).1 1 true true = ((loop cIdle 0 false true).1, []) := by
  decide

/-- C1 (amended): if the radio configure or start call fails while the
scheduler dispatches from Idle, the failure is logged and the scheduler
holds the Idle state (does not advance to Advertising); however the
dequeued frame is discarded, so the next tick proceeds with the next queued
frame rather than retrying the failed one. -/
theorem radio_fail_holds_idle_frame_dropped (c : Controller) (now : Nat)
    (cmd : Command) (rest : List Command) (cfg st : Bool)
    (hmode : c.pairing_mode = false) (hidle : c.adv_state = AdvertiseState.IDLE)
    (hq : c.queue = cmd :: rest) (hfail : cfg = false ∨ st = false) :
    (loop c now cfg st).1.adv_state = AdvertiseState.IDLE ∧
    (loop c now cfg st).1.queue = rest ∧
    (Event.logWarnConfig ∈ (loop c now cfg st).2 ∨
      Event.logWarnStart ∈ (loop c now cfg st).2) := by
  rcases hfail with h | h
  · subst h
    simp [loop, hmode, normal_loop, hidle, hq]
  · subst h
    cases cfg <;> simp [loop, hmode, normal_loop, hidle, hq]

/-- C1 witness: the amended statement at a concrete failing tick. -/
theorem radio_fail_holds_idle_frame_dropped_witness :
    (loop cIdle 3 false true).1.adv_state = AdvertiseState.IDLE ∧
    (loop cIdle 3 false true).1.queue = [] ∧
    (Event.logWarnConfig ∈ (loop cIdle 3 false true).2 ∨
      Event.logWarnStart ∈ (loop cIdle 3 false true).2) :=
  radio_fail_holds_idle_frame_dropped cIdle 3 ⟨[42], 0, 0⟩ [] false true
    rfl rfl rfl (Or.inl rfl)

/-- C6: at 5000 ms of pairing-phase time the broadcast light id does become
`base + floor(phase_elapsed / 5000)` and the member `sequence_counter_` is
set to 0x50 as the code's comment intends, but the counter actually used in
pairing advertisements (the function-local static `pairing_counter`) is not
reset: the advertisement issued by the very same tick still carries the old
counter 0x57 and the static advances to 0x58. -/
theorem pairing_counter_not_reset_on_increment :
    (pairing_loop cPairBug 5000 true true).1.pairing_light_id = 2 ∧
    (pairing_loop cPairBug 5000 true true).1.sequence_counter = 0x50 ∧
    (pairing_loop cPairBug 5000 true true).1.pairing_counter = 0x58 ∧
    Event.configAdv (((build_pairing_advertisement testKey 2 0x57).1.drop 6).take 25)
        ∈ (pairing_loop cPairBug 5000 true true).2 ∧
    (build_pairing_advertisement testKey 2 0x57).1.getD 14 0 = 0x57 := by
  decide

/-- C5 counterexample: with mesh key bytes `[1, 2, 3, 4]`, the pairing
advertisement's key hand-off field carries the raw key bytes, and the
8-byte ASCII-hex form of the key appears nowhere in the advertisement. -/
theorem pairing_adv_key_not_ascii_hex :
    (((build_pairing_advertisement oddKey 1 0x50).1.drop 25).take 4 = [1, 2, 3, 4]) ∧
    spec_ascii_hex oddKey = [0x30, 0x31, 0x30, 0x32, 0x30, 0x33, 0x30, 0x34] ∧
    (∀ i, i < 32 →
      ((build_pairing_advertisement oddKey 1 0x50).1.drop i).take 8 ≠ spec_ascii_hex oddKey) := by
  decide

/-- C5 (amended): in the pairing phase (inside the session window, with a
steady light id), each tick re-issues a pairing advertisement; the
advertisement embeds the current target light id in little-endian byte
order at bytes 15–16, and after the ASCII "99" prefix embeds the four mesh
key bytes as-is at bytes 25–28 — the raw key, not an ASCII-hex encoding of
it. -/
theorem pairing_adv_embeds_id_and_raw_key (c : Controller) (now : Nat)
    (hmode : c.pairing_mode = true)
    (hp : c.pairing_phase = PairingPhase.PAIRING)
    (hidle : c.adv_state = AdvertiseState.IDLE)
    (hel : now - c.pairing_start_time < 60000)
    (hid : c.pairing_light_id
        = c.pairing_base_light_id + (now - c.pairing_phase_start) / 5000) :
    Event.configAdv (((build_pairing_advertisement c.mesh_key c.pairing_light_id
        c.pairing_counter).1.drop 6).take 25) ∈ (loop c now true true).2 ∧
    (∀ mk lid cnt,
      ((build_pairing_advertisement mk lid cnt).1.drop 15).take 2
          = [lid &&& 0xFF, (lid >>> 8) &&& 0xFF] ∧
      (lid &&& 0xFF) + 256 * ((lid >>> 8) &&& 0xFF) = lid % 65536 ∧
      ((build_pairing_advertisement mk lid cnt).1.drop 23).take 6
          = [0x39, 0x39, mk.getD 0 0, mk.getD 1 0, mk.getD 2 0, mk.getD 3 0]) := by
  constructor
  · have h60 : ¬ 60000 ≤ now - c.pairing_start_time := by omega
    simp [loop, hmode, pairing_loop, hp, hidle, h60, ← hid]
  · intro mk lid cnt
    refine ⟨rfl, ?_, rfl⟩
    have hs : lid >>> 8 = lid / 256 := by
      rw [Nat.shiftRight_eq_div_pow]
    rw [land_255, hs, land_255]
    omega

/-- C5 witness: the amended statement at a concrete pairing-phase tick. -/
theorem pairing_adv_embeds_id_and_raw_key_witness :
    Event.configAdv (((build_pairing_advertisement cPairSteady.mesh_key
        cPairSteady.pairing_light_id cPairSteady.pairing_counter).1.drop 6).take 25)
      ∈ (loop cPairSteady 4000 true true).2 ∧
    (∀ mk lid cnt,
      ((build_pairing_advertisement mk lid cnt).1.drop 15).take 2
          = [lid &&& 0xFF, (lid >>> 8) &&& 0xFF] ∧
      (lid &&& 0xFF) + 256 * ((lid >>> 8) &&& 0xFF) = lid % 65536 ∧
      ((build_pairing_advertisement mk lid cnt).1.drop 23).take 6
          = [0x39, 0x39, mk.getD 0 0, mk.getD 1 0, mk.getD 2 0, mk.getD 3 0]) :=
  pairing_adv_embeds_id_and_raw_key cPairSteady 4000 rfl rfl rfl (by decide) (by decide)

/-- C7: once 60000 ms have elapsed since pairing-session start, the loop
tick exits pairing mode regardless of phase, stops advertising, resumes
scanning (interval 300), resets the advertisement state to Idle, and every
subsequent tick runs the normal transmission scheduler. -/
theorem pairing_timeout_exits (c : Controller) (now : Nat) (cfg st : Bool)
    (hmode : c.pairing_mode = true) (h60 : 60000 ≤ now - c.pairing_start_time) :
    (loop c now cfg st).1.pairing_mode = false ∧
    (loop c now cfg st).1.adv_state = AdvertiseState.IDLE ∧
    Event.stopAdvertising ∈ (loop c now cfg st).2 ∧
    Event.startScanning 300 ∈ (loop c now cfg st).2 ∧
    (∀ now' cfg' st', loop (loop c now cfg st).1 now' cfg' st'
        = normal_loop (loop c now cfg st).1 now' cfg' st') := by
  simp only [loop, hmode, if_true, pairing_loop, if_pos h60]
  refine ⟨by trivial, by trivial, by simp, by simp, ?_⟩
  intro now' cfg' st'
  simp [loop]

/-- C7 witness: a session started at time 0 exits at exactly 60000 ms. -/
theorem pairing_timeout_exits_witness :
    (loop (pair_device baseCtrl 1 0).1 60000 true true).1.pairing_mode = false ∧
    (loop (pair_device baseCtrl 1 0).1 60000 true true).1.adv_state = AdvertiseState.IDLE ∧
    Event.stopAdvertising ∈ (loop (pair_device baseCtrl 1 0).1 60000 true true).2 ∧
    Event.startScanning 300 ∈ (loop (pair_device baseCtrl 1 0).1 60000 true true).2 ∧
    (∀ now' cfg' st',
      loop (loop (pair_device baseCtrl 1 0).1 60000 true true).1 now' cfg' st'
        = normal_loop (loop (pair_device baseCtrl 1 0).1 60000 true true).1 now' cfg' st') :=
  pairing_timeout_exits (pair_device baseCtrl 1 0).1 60000 true true rfl (by decide)

/-- C9: two consecutive debounce-layer updates carrying the same encoded
payload `d` for a light produce at most one enqueued frame over any
interleaved tick sequences; moreover a pending command whose bytes equal
the last-transmitted bytes is never enqueued, and once both timing windows
have passed it is skipped with its pending flag cleared. -/
theorem debounce_dedup_at_most_one (s0 : LightDebounce) (d : List Nat)
    (t1 t2 : Nat) (ts1 ts2 : List Nat) :
    (run_ticks (light_write_state s0 d t1) ts1).2
      + (run_ticks (light_write_state
          (run_ticks (light_write_state s0 d t1) ts1).1 d t2) ts2).2 ≤ 1
    ∧ (∀ s : LightDebounce, ∀ now : Nat,
        s.pending_data = s.last_sent_data → (light_loop s now).2 = none)
    ∧ (∀ s : LightDebounce, ∀ now : Nat,
        s.has_pending_command = true →
        s.pending_data = s.last_sent_data →
        DEBOUNCE_MS ≤ now - s.last_state_change →
        MIN_INTERVAL_MS ≤ now - s.last_command_sent →
        light_loop s now = ({ s with has_pending_command := false }, none)) := by
  refine ⟨?_, ?_, ?_⟩
  · have h1 := run_ticks_bound (light_write_state s0 d t1) ts1
    set r1 := run_ticks (light_write_state s0 d t1) ts1 with hr1
    rcases h1 with ⟨hb1, hp1, he1, hz1⟩
    have hpend : (light_write_state s0 d t1).pending_data = d := rfl
    rw [hpend] at hp1 he1
    rcases (by omega : r1.2 = 0 ∨ r1.2 = 1) with h | h
    · have h2 := run_ticks_bound (light_write_state r1.1 d t2) ts2
      omega
    · have hls : r1.1.last_sent_data = d := he1 h
      have h2 := run_ticks_dup (light_write_state r1.1 d t2) ts2
        (by simp [light_write_state, hls])
      omega
  · intro s now h
    simp only [light_loop]
    split_ifs <;> simp_all
  · intro s now h1 h2 h3 h4
    simp [light_loop, h1, h2, Nat.not_lt.mpr h3, Nat.not_lt.mpr h4]

/-- C9 witness: the statement's conjuncts at concrete inputs. -/
theorem debounce_dedup_at_most_one_witness :
    ((run_ticks (light_write_state dbDup [2] 0) [150]).2
      + (run_ticks (light_write_state
          (run_ticks (light_write_state dbDup [2] 0) [150]).1 [2] 200) [550]).2 ≤ 1)
    ∧ (light_loop dbDup 1000).2 = none
    ∧ light_loop dbDup 1000 = ({ dbDup with has_pending_command := false }, none) :=
  ⟨(debounce_dedup_at_most_one dbDup [2] 0 200 [150] [550]).1,
   (debounce_dedup_at_most_one dbDup [2] 0 200 [150] [550]).2.1 dbDup 1000 rfl,
   (debounce_dedup_at_most_one dbDup [2] 0 200 [150] [550]).2.2 dbDup 1000 rfl rfl
     (by decide) (by decide)⟩

end Fastcon
